import Mathlib

/-!
Verification development for the custoodian repository: a shallow embedding of
the semantic validator (internal/validator/validator.go), the git template
loader (internal/templates/loader.go) and the generation orchestrator
(the generator package), together with theorems about the specified
behaviour of those components.

Conventions of the embedding:
- Go errors are modelled as `Except String`; `fmt.Errorf("ctx: %w", err)`
  wrapping becomes string concatenation with ": ".
- Go `map[string]bool` sets are modelled as `List String` with membership;
  insertion order replaces Go's arbitrary map iteration order (this only
  affects which of several overlap errors is reported, never whether an
  error is reported).
- Proto `int32` fields are modelled as `Int` (the validator only compares
  them, no arithmetic can overflow); the proto `float` field `cpu_target`
  is modelled as `Rat` (only order comparisons are performed on it).
- The Go standard library `net.ParseCIDR` is modelled for IPv4 dotted-quad
  CIDR strings; `(*IPNet).Contains` masks the address and compares it with
  the (already masked) network base address, exactly as in the stdlib.
-/

deriving instance DecidableEq for Except

namespace Custoodian

/-- Is an `Except` value an error? -/
def isErr {ε α : Type} : Except ε α → Bool
  | .error _ => true
  | .ok _ => false

/-- Sequencing of two error-returning computations, mirroring Go's
`if err := f(); err != nil { return err }` followed by the rest. -/
def andThenE (a : Except String Unit) (b : Unit → Except String Unit) : Except String Unit :=
  match a with
  | .error e => .error e
  | .ok () => b ()

/-- Bind for `Except String`, written out so proofs can unfold it directly. -/
def bindE {α β : Type} (a : Except String α) (f : α → Except String β) : Except String β :=
  match a with
  | .error e => .error e
  | .ok x => f x

/-- Error wrapping, mirroring `fmt.Errorf("ctx: %w", err)` on the error path. -/
def wrapErr (ctx : String) : Except String Unit → Except String Unit
  | .ok () => .ok ()
  | .error e => .error (ctx ++ ": " ++ e)

/-- Error wrapping for value-returning computations. -/
def mapErr {α : Type} (ctx : String) : Except String α → Except String α
  | .ok x => .ok x
  | .error e => .error (ctx ++ ": " ++ e)

/-- First error of a validation loop: Go's
`for _, x := range l { if err := f(x); err != nil { return err } }`. -/
def firstErr {α : Type} (f : α → Except String Unit) : List α → Except String Unit
  | [] => .ok ()
  | x :: xs =>
    match f x with
    | .error e => .error e
    | .ok () => firstErr f xs

/-- Does the character list `s` start with `pre`? (Structural recursion so
that the kernel can evaluate it; mirrors Go `strings.HasPrefix`.) -/
def listStartsWith : List Char → List Char → Bool
  | _, [] => true
  | [], _ :: _ => false
  | c :: cs, p :: ps => c == p && listStartsWith cs ps

/-- Does the character list `s` end with `suf`? Mirrors Go
`strings.HasSuffix`. -/
def listEndsWith (s suf : List Char) : Bool :=
  listStartsWith s.reverse suf.reverse

/-- Does `sub` occur inside `s`? Mirrors Go `strings.Contains`. -/
def listContainsSub : List Char → List Char → Bool
  | s, sub =>
    match s with
    | [] => listStartsWith [] sub
    | _ :: rest => listStartsWith s sub || listContainsSub rest sub

/-- Split a character list at every occurrence of the separator character;
mirrors Go `strings.Split` with a one-character separator (and Lean's
`String.splitOn`): the result always has one more chunk than there are
separators. -/
def splitOnChar (sep : Char) : List Char → List (List Char)
  | [] => [[]]
  | c :: rest =>
    let r := splitOnChar sep rest
    if c == sep then [] :: r
    else
      match r with
      | h :: t => (c :: h) :: t
      | [] => [[c]]

/-- Go `strings.Contains`. -/
def containsSubstr (s sub : String) : Bool :=
  listContainsSub s.toList sub.toList

/-- Go `strings.HasPrefix` on strings. -/
def goStartsWith (s pre : String) : Bool :=
  listStartsWith s.toList pre.toList

/-- Go `strings.HasSuffix` on strings. -/
def goEndsWith (s suf : String) : Bool :=
  listEndsWith s.toList suf.toList

/-! ## Model of `net.ParseCIDR` (IPv4) and `(*net.IPNet).Contains` -/

/-- Parse one decimal IPv4 component: non-empty, digits only, no leading
zero (except "0" itself), value at most 255. -/
def parseDecByte (cs : List Char) : Option Nat :=
  match cs with
  | [] => none
  | c :: rest =>
    if !(cs.all Char.isDigit) then none
    else if c == '0' && rest ≠ [] then none
    else
      let v := cs.foldl (fun acc d => acc * 10 + (d.toNat - '0'.toNat)) 0
      if v ≤ 255 then some v else none

/-- Parse a dotted-quad IPv4 address into its 32-bit value. -/
def parseIPv4 (cs : List Char) : Option Nat :=
  match splitOnChar '.' cs with
  | [a, b, c, d] =>
    match parseDecByte a, parseDecByte b, parseDecByte c, parseDecByte d with
    | some va, some vb, some vc, some vd =>
      some (((va * 256 + vb) * 256 + vc) * 256 + vd)
    | _, _, _, _ => none
  | _ => none

/-- Parse the decimal prefix length of a CIDR (digits only, at most 32). -/
def parseMaskLen (cs : List Char) : Option Nat :=
  match cs with
  | [] => none
  | _ =>
    if !(cs.all Char.isDigit) then none
    else
      let v := cs.foldl (fun acc d => acc * 10 + (d.toNat - '0'.toNat)) 0
      if v ≤ 32 then some v else none

/-- An IPv4 network: the masked base address and the prefix length. -/
structure IPNet where
  addr : Nat
  maskLen : Nat
  deriving Repr, DecidableEq

/-- Apply an `n`-bit network mask to a 32-bit address. -/
def maskAddr (a : Nat) (n : Nat) : Nat :=
  a / 2 ^ (32 - n) * 2 ^ (32 - n)

/-- `net.ParseCIDR`: returns the original address and the masked network. -/
def parseCIDR (s : String) : Option (Nat × IPNet) :=
  match splitOnChar '/' s.toList with
  | [a, m] =>
    match parseIPv4 a, parseMaskLen m with
    | some addr, some n => some (addr, ⟨maskAddr addr n, n⟩)
    | _, _ => none
  | _ => none

/-- `(*net.IPNet).Contains ip`: mask the address, compare with the base. -/
def ipnetContains (n : IPNet) (a : Nat) : Bool :=
  maskAddr a n.maskLen == n.addr

/-! ## Data model (pkg/config, from proto/custoodian/config.proto) -/

/-- `Project` message; the validator reads `id`, `billing_account`,
`organization_id`, `folder_id`. -/
structure Project where
  id : String
  name : String
  billingAccount : String
  organizationId : String
  folderId : String
  deriving Repr, DecidableEq

/-- `ReservedIpType` enum (proto: unspecified = 0). -/
inductive ReservedIpType where
  | unspecified
  | global
  | regional
  deriving Repr, DecidableEq

/-- `ReservedIp` message; `region` is the `Region` enum modelled as `Nat`
with 0 = `REGION_UNSPECIFIED`. -/
structure ReservedIp where
  name : String
  type : ReservedIpType
  region : Nat
  deriving Repr, DecidableEq

/-- `SecondaryRange` message. -/
structure SecondaryRange where
  rangeName : String
  ipCidrRange : String
  deriving Repr, DecidableEq

/-- `Subnet` message (validated fields). -/
structure Subnet where
  name : String
  cidr : String
  secondaryRanges : List SecondaryRange
  deriving Repr, DecidableEq

/-- `Vpc` message (validated fields). -/
structure Vpc where
  name : String
  subnets : List Subnet
  deriving Repr, DecidableEq

/-- `FirewallAllow` message. -/
structure FirewallAllow where
  protocol : String
  ports : List String
  deriving Repr, DecidableEq

/-- `FirewallDeny` message. -/
structure FirewallDeny where
  protocol : String
  ports : List String
  deriving Repr, DecidableEq

/-- `FirewallRule` message (validated fields). -/
structure FirewallRule where
  name : String
  direction : String
  sourceRanges : List String
  destinationRanges : List String
  sourceTags : List String
  allow : List FirewallAllow
  deny : List FirewallDeny
  deriving Repr, DecidableEq

/-- `NatGateway` message (validated fields). -/
structure NatGateway where
  name : String
  natIpAllocateOption : String
  natIps : List String
  deriving Repr, DecidableEq

/-- `Networking` message. -/
structure Networking where
  reservedIps : List ReservedIp
  vpcs : List Vpc
  firewallRules : List FirewallRule
  natGateways : List NatGateway
  deriving Repr, DecidableEq

/-- `NetworkInterface` message. -/
structure NetworkInterface where
  network : String
  subnetwork : String
  deriving Repr, DecidableEq

/-- `InstanceTemplate` message (fields read by validator and generator). -/
structure InstanceTemplate where
  name : String
  diskSizeGb : Int
  networkInterfaces : List NetworkInterface
  deriving Repr, DecidableEq

/-- `AutoScaling` message; `cpu_target` is a proto `float`, modelled as `Rat`. -/
structure AutoScaling where
  min : Int
  max : Int
  cpuTarget : Rat
  deriving Repr, DecidableEq

/-- `InstanceGroup` message (validated fields). -/
structure InstanceGroup where
  name : String
  template : String
  autoScaling : Option AutoScaling
  deriving Repr, DecidableEq

/-- `Instance` message (fields read by the generator). -/
structure Instance where
  name : String
  networkInterfaces : List NetworkInterface
  deriving Repr, DecidableEq

/-- `Compute` message. -/
structure Compute where
  instanceTemplates : List InstanceTemplate
  instanceGroups : List InstanceGroup
  instances : List Instance
  deriving Repr, DecidableEq

/-- `HealthCheck` message (validated fields). -/
structure HealthCheck where
  port : Int
  checkIntervalSec : Int
  timeoutSec : Int
  deriving Repr, DecidableEq

/-- `LoadBalancer` message (validated fields). -/
structure LoadBalancer where
  name : String
  ip : String
  backend : String
  healthCheck : Option HealthCheck
  deriving Repr, DecidableEq

/-- `ServiceAccount` message (validated fields). -/
structure ServiceAccount where
  accountId : String
  deriving Repr, DecidableEq

/-- `CustomRole` message (validated fields). -/
structure CustomRole where
  roleId : String
  permissions : List String
  stage : String
  deriving Repr, DecidableEq

/-- `Iam` message. -/
structure Iam where
  serviceAccounts : List ServiceAccount
  customRoles : List CustomRole
  deriving Repr, DecidableEq

/-- `StorageBucket` message (validated fields). -/
structure StorageBucket where
  name : String
  storageClass : String
  deriving Repr, DecidableEq

/-- `Storage` message. -/
structure Storage where
  buckets : List StorageBucket
  deriving Repr, DecidableEq

/-- `CloudRun` section: passed opaquely to its template by the generator
(its proto definition is not read by the modelled code paths). -/
structure CloudRun where
  tag : String
  deriving Repr, DecidableEq

/-- `Databases` section: passed opaquely to its template by the generator. -/
structure Databases where
  tag : String
  deriving Repr, DecidableEq

/-- `Config` root message, as used by the generator in the generator package
(which also reads `CloudRun` and `Databases` sections). -/
structure Config where
  project : Option Project
  networking : Option Networking
  compute : Option Compute
  loadBalancers : List LoadBalancer
  iam : Option Iam
  storage : Option Storage
  cloudRun : Option CloudRun
  databases : Option Databases
  deriving Repr, DecidableEq

/-! ## Validator (internal/validator/validator.go) -/

/-- `isValidGCPProjectID` / `isValidServiceAccountId` body: length 6..30 and
the regex `[a-z][a-z0-9-]*[a-z0-9]` anchored at both ends. -/
def matchLowerNameRegex (s : String) : Bool :=
  match s.toList with
  | [] => false
  | c :: rest =>
    c.isLower &&
    (match rest.getLast? with
     | none => false
     | some lc =>
       (lc.isLower || lc.isDigit) &&
       rest.dropLast.all (fun m => m.isLower || m.isDigit || m == '-'))

/-- `isValidGCPProjectID` from validator.go. -/
def isValidGCPProjectID (id : String) : Bool :=
  if id.length < 6 || id.length > 30 then false
  else matchLowerNameRegex id

/-- `isValidBillingAccount`: the regex `[0-9]{6}-[A-Z0-9]{6}-[A-Z0-9]{6}`
anchored at both ends. -/
def isValidBillingAccount (account : String) : Bool :=
  match splitOnChar '-' account.toList with
  | [a, b, c] =>
    a.length == 6 && a.all Char.isDigit &&
    b.length == 6 && b.all (fun x => x.isUpper || x.isDigit) &&
    c.length == 6 && c.all (fun x => x.isUpper || x.isDigit)
  | _ => false

/-- `isValidCIDR` from validator.go: `net.ParseCIDR` succeeds. -/
def isValidCIDR (cidr : String) : Bool :=
  (parseCIDR cidr).isSome

/-- `cidrsOverlap` from validator.go: parse both CIDRs; on any parse error
return false; otherwise test base-address containment in either direction. -/
def cidrsOverlap (cidr1 cidr2 : String) : Bool :=
  match parseCIDR cidr1, parseCIDR cidr2 with
  | some (_, net1), some (_, net2) =>
    ipnetContains net1 net2.addr || ipnetContains net2 net1.addr
  | _, _ => false

/-- `isValidServiceAccountId` from validator.go (same shape as project ids). -/
def isValidServiceAccountId (id : String) : Bool :=
  if id.length < 6 || id.length > 30 then false
  else matchLowerNameRegex id

/-- `isValidBucketName`: length 3..63 and the regex
`[a-z0-9][a-z0-9\-_.]*[a-z0-9]` anchored at both ends. -/
def isValidBucketName (name : String) : Bool :=
  if name.length < 3 || name.length > 63 then false
  else
    match name.toList with
    | [] => false
    | c :: rest =>
      (c.isLower || c.isDigit) &&
      (match rest.getLast? with
       | none => false
       | some lc =>
         (lc.isLower || lc.isDigit) &&
         rest.dropLast.all
           (fun m => m.isLower || m.isDigit || m == '-' || m == '_' || m == '.'))

/-- `validateProject`: nil check, project-id format, billing-account format,
organization/folder mutual exclusion. -/
def validateProject : Option Project → Except String Unit
  | none => .error "project configuration is required"
  | some project =>
    if !isValidGCPProjectID project.id then
      .error ("invalid project ID: " ++ project.id ++
        " (must be 6-30 characters, lowercase letters, numbers, and hyphens, start with letter, end with letter or number)")
    else if project.billingAccount ≠ "" && !isValidBillingAccount project.billingAccount then
      .error ("invalid billing account format: " ++ project.billingAccount)
    else if project.organizationId ≠ "" && project.folderId ≠ "" then
      .error "organization_id and folder_id are mutually exclusive"
    else
      .ok ()

/-- `validateReservedIP`: regional IPs need a region, global ones must not
carry one. -/
def validateReservedIP (ip : ReservedIp) : Except String Unit :=
  if ip.type == .regional && ip.region == 0 then
    .error "regional reserved IP must specify a region"
  else if ip.type == .global && ip.region != 0 then
    .error "global reserved IP should not specify a region"
  else
    .ok ()

/-- The secondary-range loop of `validateSubnet`, carrying the set of range
names seen so far. -/
def validateSecondaryRanges : List SecondaryRange → List String → Except String Unit
  | [], _ => .ok ()
  | secondary :: rest, used =>
    if !isValidCIDR secondary.ipCidrRange then
      .error ("invalid secondary CIDR format: " ++ secondary.ipCidrRange)
    else if secondary.rangeName ∈ used then
      .error ("duplicate secondary range name: " ++ secondary.rangeName)
    else
      validateSecondaryRanges rest (secondary.rangeName :: used)

/-- `validateSubnet`: CIDR format, then the secondary-range checks. -/
def validateSubnet (subnet : Subnet) : Except String Unit :=
  if !isValidCIDR subnet.cidr then
    .error ("invalid CIDR format: " ++ subnet.cidr)
  else
    validateSecondaryRanges subnet.secondaryRanges []

/-- The subnet loop of `validateVPC`, carrying the set of CIDRs seen so far
(Go's `usedCIDRs` map). After inserting the current CIDR the code scans the
whole set for an overlapping entry different from the current CIDR. -/
def validateVPCSubnets : List Subnet → List String → Except String Unit
  | [], _ => .ok ()
  | subnet :: rest, usedCIDRs =>
    match validateSubnet subnet with
    | .error e => .error ("invalid subnet " ++ subnet.name ++ ": " ++ e)
    | .ok () =>
      if subnet.cidr ∈ usedCIDRs then
        .error ("duplicate CIDR range " ++ subnet.cidr ++ " in subnet " ++ subnet.name)
      else
        let used' := subnet.cidr :: usedCIDRs
        match used'.find? (fun ex => ex != subnet.cidr && cidrsOverlap subnet.cidr ex) with
        | some ex =>
          .error ("CIDR range " ++ subnet.cidr ++ " in subnet " ++ subnet.name ++
            " overlaps with existing range " ++ ex)
        | none => validateVPCSubnets rest used'

/-- `validateVPC` from validator.go. -/
def validateVPC (vpc : Vpc) : Except String Unit :=
  validateVPCSubnets vpc.subnets []

/-- `validateFirewallRule`: direction-specific field checks, the allow/deny
exclusivity checks, then CIDR validity of the range lists. -/
def validateFirewallRule (rule : FirewallRule) : Except String Unit :=
  if rule.direction == "INGRESS" && rule.destinationRanges.length > 0 then
    .error "INGRESS rules cannot have destination_ranges"
  else if rule.direction == "EGRESS" && rule.sourceRanges.length > 0 then
    .error "EGRESS rules cannot have source_ranges"
  else if rule.direction == "EGRESS" && rule.sourceTags.length > 0 then
    .error "EGRESS rules cannot have source_tags"
  else if rule.allow.length > 0 && rule.deny.length > 0 then
    .error "firewall rule cannot have both allow and deny blocks"
  else if rule.allow.length == 0 && rule.deny.length == 0 then
    .error "firewall rule must have either allow or deny block"
  else
    andThenE
      (firstErr
        (fun cidr =>
          if !isValidCIDR cidr then .error ("invalid source range CIDR: " ++ cidr)
          else .ok ())
        rule.sourceRanges)
      (fun _ =>
        firstErr
          (fun cidr =>
            if !isValidCIDR cidr then .error ("invalid destination range CIDR: " ++ cidr)
            else .ok ())
          rule.destinationRanges)

/-- `validateNATGateway`: allocate option must be one of two values, and
MANUAL_ONLY needs at least one NAT IP. -/
def validateNATGateway (nat : NatGateway) : Except String Unit :=
  if !(nat.natIpAllocateOption ∈ ["MANUAL_ONLY", "AUTO_ONLY"]) then
    .error ("invalid NAT IP allocate option: " ++ nat.natIpAllocateOption)
  else if nat.natIpAllocateOption == "MANUAL_ONLY" && nat.natIps.length == 0 then
    .error "MANUAL_ONLY NAT IP allocation requires nat_ips to be specified"
  else
    .ok ()

/-- `validateNetworking`: reserved IPs, VPCs, firewall rules, NAT gateways,
each loop wrapping its element's error with the element's name. -/
def validateNetworking (networking : Networking) : Except String Unit :=
  andThenE
    (firstErr (fun ip => wrapErr ("invalid reserved IP " ++ ip.name) (validateReservedIP ip))
      networking.reservedIps) (fun _ =>
  andThenE
    (firstErr (fun vpc => wrapErr ("invalid VPC " ++ vpc.name) (validateVPC vpc))
      networking.vpcs) (fun _ =>
  andThenE
    (firstErr (fun rule => wrapErr ("invalid firewall rule " ++ rule.name) (validateFirewallRule rule))
      networking.firewallRules) (fun _ =>
  firstErr (fun nat => wrapErr ("invalid NAT gateway " ++ nat.name) (validateNATGateway nat))
    networking.natGateways)))

/-- `validateInstanceTemplate`: disk size at least 10, every interface names
a network or a subnetwork. -/
def validateInstanceTemplate (template : InstanceTemplate) : Except String Unit :=
  if template.diskSizeGb < 10 then
    .error "disk size must be at least 10 GB"
  else
    firstErr
      (fun iface =>
        if iface.network == "" && iface.subnetwork == "" then
          .error "network interface must specify either network or subnetwork"
        else .ok ())
      template.networkInterfaces

/-- `validateInstanceGroup`: auto-scaling bounds and CPU target range. -/
def validateInstanceGroup (group : InstanceGroup) : Except String Unit :=
  match group.autoScaling with
  | none => .ok ()
  | some a =>
    if a.min > a.max then
      .error ("auto scaling min (" ++ toString a.min ++ ") cannot be greater than max (" ++
        toString a.max ++ ")")
    else if a.cpuTarget ≤ 0 || a.cpuTarget > 1 then
      .error ("CPU target must be between 0 and 1, got " ++ toString a.cpuTarget)
    else
      .ok ()

/-- The instance-template loop of `validateCompute`: duplicate-name check and
per-template validation, returning the collected name set. -/
def computeTemplatesLoop : List InstanceTemplate → List String → Except String (List String)
  | [], names => .ok names
  | template :: rest, names =>
    if template.name ∈ names then
      .error ("duplicate instance template name: " ++ template.name)
    else
      match validateInstanceTemplate template with
      | .error e => .error ("invalid instance template " ++ template.name ++ ": " ++ e)
      | .ok () => computeTemplatesLoop rest (template.name :: names)

/-- `validateCompute`: validate templates (collecting their names), then
validate groups and check each group's template reference. -/
def validateCompute (compute : Compute) : Except String Unit :=
  bindE (computeTemplatesLoop compute.instanceTemplates [])
    (fun templateNames =>
      firstErr
        (fun group =>
          match validateInstanceGroup group with
          | .error e => .error ("invalid instance group " ++ group.name ++ ": " ++ e)
          | .ok () =>
            if !(group.template ∈ templateNames) then
              .error ("instance group " ++ group.name ++ " references unknown template: " ++
                group.template)
            else .ok ())
        compute.instanceGroups)

/-- `validateHealthCheck`: port in range, timeout strictly below interval. -/
def validateHealthCheck (hc : HealthCheck) : Except String Unit :=
  if hc.port ≤ 0 || hc.port > 65535 then
    .error ("invalid port: " ++ toString hc.port)
  else if hc.timeoutSec ≥ hc.checkIntervalSec then
    .error ("timeout_sec (" ++ toString hc.timeoutSec ++ ") must be less than check_interval_sec (" ++
      toString hc.checkIntervalSec ++ ")")
  else
    .ok ()

/-- `validateLoadBalancer`: validate the health check when present. -/
def validateLoadBalancer (lb : LoadBalancer) : Except String Unit :=
  match lb.healthCheck with
  | none => .ok ()
  | some hc => wrapErr "invalid health check" (validateHealthCheck hc)

/-- `validateLoadBalancers`: per-balancer loop. -/
def validateLoadBalancers (lbs : List LoadBalancer) : Except String Unit :=
  firstErr (fun lb => wrapErr ("invalid load balancer " ++ lb.name) (validateLoadBalancer lb)) lbs

/-- `validateServiceAccount`: account-id format. -/
def validateServiceAccount (sa : ServiceAccount) : Except String Unit :=
  if !isValidServiceAccountId sa.accountId then
    .error ("invalid service account ID format: " ++ sa.accountId)
  else
    .ok ()

/-- `validateCustomRole`: non-empty permissions and a valid stage. -/
def validateCustomRole (role : CustomRole) : Except String Unit :=
  if role.permissions.length == 0 then
    .error "custom role must have at least one permission"
  else if role.stage ≠ "" && !(role.stage ∈ ["ALPHA", "BETA", "GA", "DEPRECATED"]) then
    .error ("invalid stage: " ++ role.stage)
  else
    .ok ()

/-- The service-account loop of `validateIAM`, carrying seen account ids. -/
def iamServiceAccountsLoop : List ServiceAccount → List String → Except String Unit
  | [], _ => .ok ()
  | sa :: rest, ids =>
    if sa.accountId ∈ ids then
      .error ("duplicate service account ID: " ++ sa.accountId)
    else
      match validateServiceAccount sa with
      | .error e => .error ("invalid service account " ++ sa.accountId ++ ": " ++ e)
      | .ok () => iamServiceAccountsLoop rest (sa.accountId :: ids)

/-- The custom-role loop of `validateIAM`, carrying seen role ids. -/
def iamCustomRolesLoop : List CustomRole → List String → Except String Unit
  | [], _ => .ok ()
  | role :: rest, ids =>
    if role.roleId ∈ ids then
      .error ("duplicate custom role ID: " ++ role.roleId)
    else
      match validateCustomRole role with
      | .error e => .error ("invalid custom role " ++ role.roleId ++ ": " ++ e)
      | .ok () => iamCustomRolesLoop rest (role.roleId :: ids)

/-- `validateIAM`: service accounts then custom roles. -/
def validateIAM (iam : Iam) : Except String Unit :=
  andThenE (iamServiceAccountsLoop iam.serviceAccounts [])
    (fun _ => iamCustomRolesLoop iam.customRoles [])

/-- `validateStorageBucket`: bucket name format and storage class. -/
def validateStorageBucket (bucket : StorageBucket) : Except String Unit :=
  if !isValidBucketName bucket.name then
    .error ("invalid bucket name format: " ++ bucket.name)
  else if bucket.storageClass ≠ "" &&
      !(bucket.storageClass ∈ ["STANDARD", "NEARLINE", "COLDLINE", "ARCHIVE"]) then
    .error ("invalid storage class: " ++ bucket.storageClass)
  else
    .ok ()

/-- The bucket loop of `validateStorage`, carrying seen bucket names. -/
def storageBucketsLoop : List StorageBucket → List String → Except String Unit
  | [], _ => .ok ()
  | bucket :: rest, names =>
    if bucket.name ∈ names then
      .error ("duplicate bucket name: " ++ bucket.name)
    else
      match validateStorageBucket bucket with
      | .error e => .error ("invalid storage bucket " ++ bucket.name ++ ": " ++ e)
      | .ok () => storageBucketsLoop rest (bucket.name :: names)

/-- `validateStorage` from validator.go. -/
def validateStorage (storage : Storage) : Except String Unit :=
  storageBucketsLoop storage.buckets []

/-- `resourceNames` from validator.go (name sets as lists). -/
structure ResourceNames where
  reservedIPs : List String
  networks : List String
  subnets : List String
  instanceGroups : List String
  serviceAccounts : List String
  deriving Repr, DecidableEq

/-- `collectResourceNames`: one pass over every section building the typed
name registries. -/
def collectResourceNames (cfg : Config) : ResourceNames :=
  { reservedIPs :=
      match cfg.networking with
      | some n => n.reservedIps.map (fun ip => ip.name)
      | none => []
    networks :=
      match cfg.networking with
      | some n => n.vpcs.map (fun vpc => vpc.name)
      | none => []
    subnets :=
      match cfg.networking with
      | some n => (n.vpcs.map (fun vpc => vpc.subnets.map (fun s => s.name))).flatten
      | none => []
    instanceGroups :=
      match cfg.compute with
      | some c => c.instanceGroups.map (fun g => g.name)
      | none => []
    serviceAccounts :=
      match cfg.iam with
      | some i => i.serviceAccounts.map (fun sa => sa.accountId)
      | none => [] }

/-- One load balancer's reference checks inside `validateCrossReferences`:
the `ip` field is checked only when non-empty, the `backend` field always. -/
def checkLoadBalancerRefs (resources : ResourceNames) (lb : LoadBalancer) : Except String Unit :=
  if lb.ip ≠ "" && !(lb.ip ∈ resources.reservedIPs) then
    .error ("load balancer " ++ lb.name ++ " references unknown reserved IP: " ++ lb.ip)
  else if !(lb.backend ∈ resources.instanceGroups) then
    .error ("load balancer " ++ lb.name ++ " references unknown backend: " ++ lb.backend)
  else
    .ok ()

/-- `validateCrossReferences`: collect all names, then check every load
balancer's references. -/
def validateCrossReferences (cfg : Config) : Except String Unit :=
  firstErr (checkLoadBalancerRefs (collectResourceNames cfg)) cfg.loadBalancers

/-- `ValidateConfig`: the structural (protovalidate) phase is an external
collaborator and is passed in as `structural`; then the business-rule phases
in order, each wrapped with its phase context, then cross references. -/
def ValidateConfig (structural : Except String Unit) (cfg : Config) : Except String Unit :=
  match structural with
  | .error e => .error ("proto validation failed: " ++ e)
  | .ok () =>
    andThenE (wrapErr "project validation failed" (validateProject cfg.project)) (fun _ =>
    andThenE
      (match cfg.networking with
       | some n => wrapErr "networking validation failed" (validateNetworking n)
       | none => .ok ()) (fun _ =>
    andThenE
      (match cfg.compute with
       | some c => wrapErr "compute validation failed" (validateCompute c)
       | none => .ok ()) (fun _ =>
    andThenE
      (if cfg.loadBalancers.length > 0 then
        wrapErr "load balancer validation failed" (validateLoadBalancers cfg.loadBalancers)
       else .ok ()) (fun _ =>
    andThenE
      (match cfg.iam with
       | some i => wrapErr "IAM validation failed" (validateIAM i)
       | none => .ok ()) (fun _ =>
    andThenE
      (match cfg.storage with
       | some s => wrapErr "storage validation failed" (validateStorage s)
       | none => .ok ()) (fun _ =>
    wrapErr "cross-reference validation failed" (validateCrossReferences cfg)))))))

/-! ## Template source resolver (internal/templates/loader.go) -/

/-- The allow-listed git hosts of `validateAndNormalizeGitURL`. -/
def allowedGitHosts : List String := ["github.com", "gitlab.com", "bitbucket.org"]

/-- The short-form normalization step of `validateAndNormalizeGitURL`: a URL
with no scheme separator and no `git@` start gets `https://` in front and a
`.git` tail when missing. -/
def normalizeShortGitURL (repoURL : String) : String :=
  if !containsSubstr repoURL "://" && !goStartsWith repoURL "git@" then
    let u := "https://" ++ repoURL
    if !goEndsWith u ".git" then u ++ ".git" else u
  else repoURL

/-- The host of a normalized SSH-form URL, as `validateAndNormalizeGitURL`
extracts it: split on `@` (demanding exactly two parts), then take what
stands before the first `:` of the second part (demanding a colon). -/
def gitSSHHost (url : String) : Option String :=
  match splitOnChar '@' url.toList with
  | [_, hostAndPath] =>
    match splitOnChar ':' hostAndPath with
    | host :: _ :: _ => some (String.mk host)
    | _ => none
  | _ => none

/-- The host of a normalized HTTPS-form URL, as `validateAndNormalizeGitURL`
extracts it: split on `/` and take the third chunk, demanding at least four
chunks. -/
def gitHTTPSHost (url : String) : Option String :=
  let urlParts := splitOnChar '/' url.toList
  if urlParts.length < 4 then none
  else (urlParts.get? 2).map String.mk

/-- `validateAndNormalizeGitURL`: normalize short forms, then validate the
SSH (`git@host:path`) or HTTPS (`https://host/path`) shape and check the
host against the allow-list. -/
def validateAndNormalizeGitURL (repoURL : String) : Except String String :=
  let url := normalizeShortGitURL repoURL
  if goStartsWith url "git@" then
    match gitSSHHost url with
    | some host =>
      if host ∈ allowedGitHosts then .ok url
      else .error ("Git host " ++ host ++ " is not allowed")
    | none => .error "invalid SSH Git URL format"
  else
    if !goStartsWith url "https://" then
      .error "only HTTPS and SSH Git URLs are supported"
    else
      match gitHTTPSHost url with
      | some host =>
        if host ∈ allowedGitHosts then .ok url
        else .error ("Git host " ++ host ++ " is not allowed")
      | none => .error "invalid Git URL format"

/-- The host that `validateAndNormalizeGitURL` extracts and checks for a
given input URL, when its shape admits one. -/
def gitUrlHost (repoURL : String) : Option String :=
  let url := normalizeShortGitURL repoURL
  if goStartsWith url "git@" then gitSSHHost url
  else if !goStartsWith url "https://" then none
  else gitHTTPSHost url

/-- Outcome of `LoadFromGit`: the returned templates or error, and whether a
clone of the repository was ever attempted. -/
structure GitLoadResult where
  result : Except String (List (String × String))
  cloneAttempted : Bool
  deriving Repr

/-- `LoadFromGit`: validate and normalize the URL (returning before any
clone on failure), clone into a scratch directory, then load the `.tf`
files from it. The clone step and the directory read are external effects,
passed in as `clone` and `loadTmpDir`. -/
def LoadFromGit (clone : String → Except String Unit)
    (loadTmpDir : Except String (List (String × String)))
    (repoURL : String) : GitLoadResult :=
  match validateAndNormalizeGitURL repoURL with
  | .error e => ⟨.error ("invalid Git repository URL: " ++ e), false⟩
  | .ok normalizedURL =>
    match clone normalizedURL with
    | .error e => ⟨.error ("failed to clone repository " ++ repoURL ++ ": " ++ e), true⟩
    | .ok () =>
      match loadTmpDir with
      | .error e => ⟨.error ("failed to load templates from cloned repository: " ++ e), true⟩
      | .ok templates => ⟨.ok templates, true⟩

/-! ## Generator orchestrator (generator package, `Generator.Generate`) -/

/-- `DependencyInfo` from the generator package. -/
structure DependencyInfo where
  requiresProjectAPIs : Bool
  projectAPIs : List String
  requiresNetworking : Bool
  networkDependencies : List String
  deriving Repr, DecidableEq

/-- The `Data` payload of a `TemplateContext` (one of the section types that
are rendered through a context). -/
inductive SectionData where
  | networkingData (n : Networking)
  | computeData (c : Compute)
  | iamData (i : Iam)
  | cloudRunData (c : CloudRun)
  | databasesData (d : Databases)
  deriving Repr, DecidableEq

/-- The value handed to `ExecuteTemplate` for one named template: the raw
section, a `TemplateContext` pairing data with dependencies, or the whole
config (for variables/outputs). -/
inductive TmplArg where
  | projectArg (p : Project)
  | ctxArg (d : SectionData) (deps : DependencyInfo)
  | lbsArg (l : List LoadBalancer)
  | storageArg (s : Storage)
  | configArg (c : Config)
  deriving Repr, DecidableEq

/-- A compiled template set, as the generator uses it: execute one named
template against its data, yielding rendered text or an execution error. -/
def ExecFn : Type := String → TmplArg → Except String String

/-- The network-dependency scan of `generateCompute`: non-empty network and
subnetwork references of instance templates, then of individual instances. -/
def computeNetworkDeps (compute : Compute) : List String :=
  (compute.instanceTemplates.map (fun t =>
    (t.networkInterfaces.map (fun iface =>
      (if iface.network ≠ "" then ["google_compute_network." ++ iface.network] else []) ++
      (if iface.subnetwork ≠ "" then ["google_compute_subnetwork." ++ iface.subnetwork] else []))).flatten)).flatten
  ++
  (compute.instances.map (fun inst =>
    (inst.networkInterfaces.map (fun iface =>
      (if iface.network ≠ "" then ["google_compute_network." ++ iface.network] else []) ++
      (if iface.subnetwork ≠ "" then ["google_compute_subnetwork." ++ iface.subnetwork] else []))).flatten)).flatten

/-- `generateProject`: run the `project.tf` template on the raw project. -/
def generateProject (exec : ExecFn) (project : Project) : Except String String :=
  mapErr "template execution failed for project configuration"
    (exec "project.tf" (.projectArg project))

/-- `generateNetworking`: context with the compute API dependency. -/
def generateNetworking (exec : ExecFn) (networking : Networking) : Except String String :=
  mapErr "template execution failed for networking configuration"
    (exec "networking.tf" (.ctxArg (.networkingData networking)
      ⟨true, ["compute.googleapis.com"], false, []⟩))

/-- `generateCompute`: context whose network dependencies come from the
interface scan. -/
def generateCompute (exec : ExecFn) (compute : Compute) : Except String String :=
  let networkDeps := computeNetworkDeps compute
  mapErr "template execution failed for compute configuration"
    (exec "compute.tf" (.ctxArg (.computeData compute)
      ⟨true, ["compute.googleapis.com"], !networkDeps.isEmpty, networkDeps⟩))

/-- `generateLoadBalancers`: run `load_balancers.tf` on the raw list. -/
def generateLoadBalancers (exec : ExecFn) (lbs : List LoadBalancer) : Except String String :=
  mapErr "template execution failed for load balancer configuration"
    (exec "load_balancers.tf" (.lbsArg lbs))

/-- `generateIAM`: context with no dependencies. -/
def generateIAM (exec : ExecFn) (iam : Iam) : Except String String :=
  mapErr "template execution failed for IAM configuration"
    (exec "iam.tf" (.ctxArg (.iamData iam) ⟨false, [], false, []⟩))

/-- `generateStorage`: run `storage.tf` on the raw storage section. -/
def generateStorage (exec : ExecFn) (storage : Storage) : Except String String :=
  mapErr "template execution failed for storage configuration"
    (exec "storage.tf" (.storageArg storage))

/-- `generateCloudRun`: context with the run/vpcaccess API dependencies. -/
def generateCloudRun (exec : ExecFn) (cloudRun : CloudRun) : Except String String :=
  mapErr "template execution failed for Cloud Run configuration"
    (exec "cloud_run.tf" (.ctxArg (.cloudRunData cloudRun)
      ⟨true, ["run.googleapis.com", "vpcaccess.googleapis.com"], false, []⟩))

/-- `generateDatabases`: context with the sql/spanner API dependencies. -/
def generateDatabases (exec : ExecFn) (databases : Databases) : Except String String :=
  mapErr "template execution failed for database configuration"
    (exec "databases.tf" (.ctxArg (.databasesData databases)
      ⟨true, ["sqladmin.googleapis.com", "spanner.googleapis.com"], false, []⟩))

/-- `generateVariables`: run `variables.tf` on the whole config. -/
def generateVariables (exec : ExecFn) (cfg : Config) : Except String String :=
  mapErr "template execution failed for variables configuration"
    (exec "variables.tf" (.configArg cfg))

/-- `generateOutputs`: run `outputs.tf` on the whole config. -/
def generateOutputs (exec : ExecFn) (cfg : Config) : Except String String :=
  mapErr "template execution failed for outputs configuration"
    (exec "outputs.tf" (.configArg cfg))

/-- The `cfg.Project != nil` block of `Generate`: the file is added whenever
the section is present, even when its content is empty. -/
def projectPart (exec : ExecFn) (cfg : Config) : Except String (List (String × String)) :=
  match cfg.project with
  | none => .ok []
  | some p =>
    bindE (mapErr "failed to generate project configuration" (generateProject exec p))
      (fun content => .ok [("project.tf", content)])

/-- The networking block of `Generate`: the file is added only when its
rendered content is non-empty. -/
def networkingPart (exec : ExecFn) (cfg : Config) : Except String (List (String × String)) :=
  match cfg.networking with
  | none => .ok []
  | some n =>
    bindE (mapErr "failed to generate networking configuration" (generateNetworking exec n))
      (fun content => .ok (if content == "" then [] else [("networking.tf", content)]))

/-- The compute block of `Generate` (file added only when non-empty). -/
def computePart (exec : ExecFn) (cfg : Config) : Except String (List (String × String)) :=
  match cfg.compute with
  | none => .ok []
  | some c =>
    bindE (mapErr "failed to generate compute configuration" (generateCompute exec c))
      (fun content => .ok (if content == "" then [] else [("compute.tf", content)]))

/-- The load-balancer block of `Generate`: the file is added whenever the
list is non-empty, even when its content is empty. -/
def lbsPart (exec : ExecFn) (cfg : Config) : Except String (List (String × String)) :=
  if cfg.loadBalancers.length > 0 then
    bindE (mapErr "failed to generate load balancer configuration"
        (generateLoadBalancers exec cfg.loadBalancers))
      (fun content => .ok [("load_balancers.tf", content)])
  else .ok []

/-- The IAM block of `Generate` (file added only when non-empty). -/
def iamPart (exec : ExecFn) (cfg : Config) : Except String (List (String × String)) :=
  match cfg.iam with
  | none => .ok []
  | some i =>
    bindE (mapErr "failed to generate IAM configuration" (generateIAM exec i))
      (fun content => .ok (if content == "" then [] else [("iam.tf", content)]))

/-- The storage block of `Generate` (file added only when non-empty). -/
def storagePart (exec : ExecFn) (cfg : Config) : Except String (List (String × String)) :=
  match cfg.storage with
  | none => .ok []
  | some s =>
    bindE (mapErr "failed to generate storage configuration" (generateStorage exec s))
      (fun content => .ok (if content == "" then [] else [("storage.tf", content)]))

/-- The Cloud Run block of `Generate` (file added only when non-empty). -/
def cloudRunPart (exec : ExecFn) (cfg : Config) : Except String (List (String × String)) :=
  match cfg.cloudRun with
  | none => .ok []
  | some c =>
    bindE (mapErr "failed to generate Cloud Run configuration" (generateCloudRun exec c))
      (fun content => .ok (if content == "" then [] else [("cloud_run.tf", content)]))

/-- The databases block of `Generate` (file added only when non-empty). -/
def databasesPart (exec : ExecFn) (cfg : Config) : Except String (List (String × String)) :=
  match cfg.databases with
  | none => .ok []
  | some d =>
    bindE (mapErr "failed to generate database configuration" (generateDatabases exec d))
      (fun content => .ok (if content == "" then [] else [("databases.tf", content)]))

/-- `Generator.Generate`: the section blocks in their fixed order, then the
always-present variables and outputs files. The output map is an association
list whose keys are pairwise distinct by construction. -/
def Generate (exec : ExecFn) (cfg : Config) : Except String (List (String × String)) :=
  bindE (projectPart exec cfg) (fun a =>
  bindE (networkingPart exec cfg) (fun b =>
  bindE (computePart exec cfg) (fun c =>
  bindE (lbsPart exec cfg) (fun d =>
  bindE (iamPart exec cfg) (fun e =>
  bindE (storagePart exec cfg) (fun f =>
  bindE (cloudRunPart exec cfg) (fun g =>
  bindE (databasesPart exec cfg) (fun h =>
  bindE (mapErr "failed to generate variables configuration" (generateVariables exec cfg)) (fun v =>
  bindE (mapErr "failed to generate outputs configuration" (generateOutputs exec cfg)) (fun o =>
  .ok (a ++ b ++ c ++ d ++ e ++ f ++ g ++ h ++
    [("variables.tf", v), ("outputs.tf", o)])))))))))))

/-- Modelled from the spec: the builtin template set.
`templates.GetBuiltinTemplates` and the template bodies it embeds are not
under src/; per the spec, the builtin set is a fixed embedded set whose
resolution always succeeds, and generation over it succeeds for every
validated config, so executing any builtin template is modelled as total;
the rendered text itself is not modelled. -/
def builtinExec : ExecFn := fun _ _ => .ok ""

/-! ## Sample data used by witnesses -/

/-- The project of the validator test scenario. -/
def sampleProject : Project := ⟨"test-project-123", "Test Project", "", "", ""⟩

/-- A minimal config carrying only the sample project. -/
def sampleConfig : Config := ⟨some sampleProject, none, none, [], none, none, none, none⟩

/-- A config with no project section. -/
def noProjectConfig : Config := ⟨none, none, none, [], none, none, none, none⟩

/-- A firewall rule with both allow and deny blocks. -/
def fwBothRule : FirewallRule :=
  ⟨"bad-rule", "INGRESS", [], [], [], [⟨"tcp", ["80"]⟩], [⟨"udp", []⟩]⟩

/-- A firewall rule with exactly one allow block, a valid source CIDR and no
direction-forbidden field populated. -/
def fwOkRule : FirewallRule :=
  ⟨"good-rule", "INGRESS", ["10.0.0.0/8"], [], ["web"], [⟨"tcp", ["80"]⟩], []⟩

/-- A health check with port 80, interval 10, timeout 5. -/
def hcOkSample : HealthCheck := ⟨80, 10, 5⟩

/-- A health check whose timeout equals its interval. -/
def hcEqSample : HealthCheck := ⟨80, 5, 5⟩

/-- A concrete VPC whose two subnets share one CIDR string. -/
def dupCidrVpc : Vpc :=
  ⟨"v", [⟨"alpha", "10.0.0.0/24", []⟩, ⟨"beta", "10.0.0.0/24", []⟩]⟩


/-- An empty networking section (renders empty with the builtin set). -/
def emptyNetworking : Networking := ⟨[], [], [], []⟩

/-- A sample load balancer with empty ip. -/
def lbSample : LoadBalancer := ⟨"lb", "", "grp", none⟩

/-- A config exercising the always-include and omit-when-empty rules. -/
def policyConfig : Config :=
  ⟨some sampleProject, some emptyNetworking, none, [lbSample], none, none, none, none⟩

/-- The output `Generate builtinExec policyConfig` produces. -/
def policyOut : List (String × String) :=
  [("project.tf", ""), ("load_balancers.tf", ""), ("variables.tf", ""), ("outputs.tf", "")]

/-! ## Helper lemmas -/

@[simp]
theorem andThenE_ok (b : Unit → Except String Unit) : andThenE (.ok ()) b = b () := rfl

@[simp]
theorem andThenE_error (e : String) (b : Unit → Except String Unit) :
    andThenE (.error e) b = .error e := rfl

@[simp]
theorem bindE_ok {α β : Type} (x : α) (f : α → Except String β) :
    bindE (.ok x) f = f x := rfl

@[simp]
theorem bindE_error {α β : Type} (e : String) (f : α → Except String β) :
    bindE (.error e) f = .error e := rfl

@[simp]
theorem wrapErr_ok (ctx : String) : wrapErr ctx (.ok ()) = .ok () := rfl

@[simp]
theorem wrapErr_error (ctx e : String) :
    wrapErr ctx (.error e) = .error (ctx ++ ": " ++ e) := rfl

@[simp]
theorem mapErr_ok {α : Type} (ctx : String) (x : α) :
    mapErr ctx (.ok x) = (.ok x : Except String α) := rfl

@[simp]
theorem mapErr_error {α : Type} (ctx e : String) :
    mapErr ctx (.error e) = (.error (ctx ++ ": " ++ e) : Except String α) := rfl

@[simp]
theorem isErr_error {ε α : Type} (e : ε) : isErr (.error e : Except ε α) = true := rfl

@[simp]
theorem isErr_ok {ε α : Type} (x : α) : isErr (.ok x : Except ε α) = false := rfl

theorem isErr_of_wrapErr (ctx : String) (e : Except String Unit)
    (h : isErr e = true) : isErr (wrapErr ctx e) = true := by
  cases e with
  | error m => simp
  | ok u => cases u; simp [isErr] at h

theorem isErr_of_andThenE_left (a : Except String Unit) (b : Unit → Except String Unit)
    (h : isErr a = true) : isErr (andThenE a b) = true := by
  cases a with
  | error m => simp
  | ok u => cases u; simp [isErr] at h

theorem firstErr_ok_of_all {α : Type} (f : α → Except String Unit) (l : List α)
    (h : ∀ x ∈ l, f x = .ok ()) : firstErr f l = .ok () := by
  induction l with
  | nil => rfl
  | cons x xs ih =>
    have hx : f x = .ok () := h x (by simp)
    simp only [firstErr, hx]
    exact ih (fun y hy => h y (by simp [hy]))

theorem parseCIDR_none_of_not_valid (s : String) (h : isValidCIDR s = false) :
    parseCIDR s = none := by
  cases hp : parseCIDR s with
  | none => rfl
  | some p => rw [isValidCIDR, hp] at h; simp at h

theorem firstErr_isErr_of_mem {α : Type} (f : α → Except String Unit) (l : List α)
    (x : α) (hmem : x ∈ l) (hx : isErr (f x) = true) : isErr (firstErr f l) = true := by
  induction l with
  | nil => simp at hmem
  | cons y ys ih =>
    simp only [firstErr]
    cases hfy : f y with
    | error e => simp
    | ok u =>
      cases u
      rcases List.mem_cons.mp hmem with h | h
      · subst h; rw [hfy] at hx; simp [isErr] at hx
      · exact ih h

/-! ## Claim theorems -/

/-- C2: `Generate` is deterministic — two calls with the same compiled
template set and the same `Config` value return identical output maps
(same keys, byte-identical text). The embedding of `Generate` is a pure
function of the template set and the config, so equal inputs give equal
outputs. -/
theorem Generate_deterministic (exec₁ exec₂ : ExecFn) (cfg₁ cfg₂ : Config)
    (he : exec₁ = exec₂) (hc : cfg₁ = cfg₂) : Generate exec₁ cfg₁ = Generate exec₂ cfg₂ := by
  rw [he, hc]

/-- Witness for C2 at the builtin template set and the sample config. -/
theorem Generate_deterministic_witness :
    Generate builtinExec sampleConfig = Generate builtinExec sampleConfig :=
  Generate_deterministic builtinExec builtinExec sampleConfig sampleConfig rfl rfl

/-- C4: a `Config` whose project section is absent never passes
`ValidateConfig`, whatever the structural phase said. -/
theorem ValidateConfig_requires_project (structural : Except String Unit) (cfg : Config)
    (h : cfg.project = none) : isErr (ValidateConfig structural cfg) = true := by
  cases structural with
  | error e => simp [ValidateConfig]
  | ok u =>
    cases u
    simp [ValidateConfig, h, validateProject]

/-- Witness for C4 at a concrete project-less config. -/
theorem ValidateConfig_requires_project_witness :
    isErr (ValidateConfig (.ok ()) noProjectConfig) = true :=
  ValidateConfig_requires_project (.ok ()) noProjectConfig rfl

/-- C5: a firewall rule fails validation when allow and deny are both
non-empty, or both empty, or when an EGRESS rule has source ranges or source
tags, or when an INGRESS rule has destination ranges; and a rule with
exactly one of allow/deny non-empty, all range CIDRs valid, and no
direction-forbidden field populated passes. -/
theorem validateFirewallRule_spec (rule : FirewallRule) :
    (rule.allow ≠ [] ∧ rule.deny ≠ [] → isErr (validateFirewallRule rule) = true) ∧
    (rule.allow = [] ∧ rule.deny = [] → isErr (validateFirewallRule rule) = true) ∧
    (rule.direction = "EGRESS" ∧ (rule.sourceRanges ≠ [] ∨ rule.sourceTags ≠ []) →
      isErr (validateFirewallRule rule) = true) ∧
    (rule.direction = "INGRESS" ∧ rule.destinationRanges ≠ [] →
      isErr (validateFirewallRule rule) = true) ∧
    (((rule.allow ≠ [] ∧ rule.deny = []) ∨ (rule.allow = [] ∧ rule.deny ≠ [])) →
      (∀ c ∈ rule.sourceRanges, isValidCIDR c = true) →
      (∀ c ∈ rule.destinationRanges, isValidCIDR c = true) →
      ¬(rule.direction = "EGRESS" ∧ (rule.sourceRanges ≠ [] ∨ rule.sourceTags ≠ [])) →
      ¬(rule.direction = "INGRESS" ∧ rule.destinationRanges ≠ []) →
      validateFirewallRule rule = .ok ()) :=
  by
  refine ⟨?_, ?_, ?_, ?_, ?_⟩
  · rintro ⟨ha, hd⟩
    simp only [validateFirewallRule]
    split_ifs with h1 h2 h3 h4 h5 <;> try simp
    simp only [Bool.and_eq_true, decide_eq_true_eq, not_and] at h4
    exact absurd (List.length_pos.mpr hd) (h4 (List.length_pos.mpr ha))
  · rintro ⟨ha, hd⟩
    simp only [validateFirewallRule]
    split_ifs with h1 h2 h3 h4 h5 <;> try simp
    simp [ha, hd] at h5
  · rintro ⟨hdir, hfields⟩
    simp only [validateFirewallRule]
    split_ifs with h1 h2 h3 h4 h5 <;> try simp
    simp only [Bool.and_eq_true, beq_iff_eq, decide_eq_true_eq, not_and] at h2 h3
    rcases hfields with hf | hf
    · exact absurd (List.length_pos.mpr hf) (h2 hdir)
    · exact absurd (List.length_pos.mpr hf) (h3 hdir)
  · rintro ⟨hdir, hfield⟩
    simp only [validateFirewallRule]
    split_ifs with h1 h2 h3 h4 h5 <;> try simp
    simp only [Bool.and_eq_true, beq_iff_eq, decide_eq_true_eq, not_and] at h1
    exact absurd (List.length_pos.mpr hfield) (h1 hdir)
  · intro hone hsrc hdst hnotEg hnotIn
    simp only [validateFirewallRule]
    split_ifs with h1 h2 h3 h4 h5
    · simp only [Bool.and_eq_true, beq_iff_eq, decide_eq_true_eq] at h1
      exact absurd ⟨h1.1, List.length_pos.mp h1.2⟩ hnotIn
    · simp only [Bool.and_eq_true, beq_iff_eq, decide_eq_true_eq] at h2
      exact absurd ⟨h2.1, Or.inl (List.length_pos.mp h2.2)⟩ hnotEg
    · simp only [Bool.and_eq_true, beq_iff_eq, decide_eq_true_eq] at h3
      exact absurd ⟨h3.1, Or.inr (List.length_pos.mp h3.2)⟩ hnotEg
    · simp only [Bool.and_eq_true, decide_eq_true_eq] at h4
      rcases hone with ⟨_, hd⟩ | ⟨ha, _⟩
      · rw [hd] at h4; simp at h4
      · rw [ha] at h4; simp at h4
    · simp only [Bool.and_eq_true, beq_iff_eq] at h5
      rcases hone with ⟨ha, _⟩ | ⟨_, hd⟩
      · exact absurd (List.length_eq_zero.mp h5.1) ha
      · exact absurd (List.length_eq_zero.mp h5.2) hd
    · rw [firstErr_ok_of_all _ _ (fun c hc => by simp [hsrc c hc]), andThenE_ok]
      exact firstErr_ok_of_all _ _ (fun c hc => by simp [hdst c hc])

/-- Witness for C5: the both-blocks rule fails, the well-formed rule passes. -/
theorem validateFirewallRule_spec_witness :
    isErr (validateFirewallRule fwBothRule) = true ∧
    validateFirewallRule fwOkRule = .ok () :=
  ⟨(validateFirewallRule_spec fwBothRule).1 (by decide),
   (validateFirewallRule_spec fwOkRule).2.2.2.2 (by decide) (by decide) (by decide)
     (by decide) (by decide)⟩

/-- C6: health-check validation succeeds exactly when the port lies in
1..65535 and the timeout is strictly below the check interval; equal
timeout and interval fail. -/
theorem validateHealthCheck_ok_iff (hc : HealthCheck) :
    (validateHealthCheck hc = .ok () ↔
      (1 ≤ hc.port ∧ hc.port ≤ 65535 ∧ hc.timeoutSec < hc.checkIntervalSec)) ∧
    (hc.timeoutSec = hc.checkIntervalSec → isErr (validateHealthCheck hc) = true) :=
  by
  simp only [validateHealthCheck]
  split_ifs with h1 h2
  · simp only [Bool.or_eq_true, decide_eq_true_eq] at h1
    constructor
    · constructor
      · intro h; exact absurd h (by simp)
      · rintro ⟨hp1, hp2, _⟩; omega
    · intro _; simp
  · simp only [Bool.or_eq_true, decide_eq_true_eq, not_or] at h1
    simp only [decide_eq_true_eq] at h2
    constructor
    · constructor
      · intro h; exact absurd h (by simp)
      · rintro ⟨_, _, ht⟩; omega
    · intro _; simp
  · simp only [Bool.or_eq_true, decide_eq_true_eq, not_or] at h1
    simp only [decide_eq_true_eq, not_le] at h2
    constructor
    · constructor
      · intro _; omega
      · intro _; rfl
    · intro heq; omega

/-- Witness for C6: the valid health check passes, the equal-timeout one
fails. -/
theorem validateHealthCheck_ok_iff_witness :
    validateHealthCheck hcOkSample = .ok () ∧
    isErr (validateHealthCheck hcEqSample) = true :=
  ⟨(validateHealthCheck_ok_iff hcOkSample).1.mpr (by decide),
   (validateHealthCheck_ok_iff hcEqSample).2 rfl⟩

/-- C10: `cidrsOverlap` is symmetric in its two arguments, and it returns
false whenever either argument fails to parse as a CIDR. -/
theorem cidrsOverlap_symm_and_parse_failure (a b : String) :
    cidrsOverlap a b = cidrsOverlap b a ∧
    (isValidCIDR a = false ∨ isValidCIDR b = false → cidrsOverlap a b = false) :=
  by
  constructor
  · rcases ha : parseCIDR a with _ | ⟨a0, n1⟩ <;> rcases hb : parseCIDR b with _ | ⟨b0, n2⟩ <;>
      simp [cidrsOverlap, ha, hb, Bool.or_comm]
  · intro h
    rcases h with h | h
    · simp [cidrsOverlap, parseCIDR_none_of_not_valid a h]
    · rcases ha : parseCIDR a with _ | ⟨a0, n1⟩ <;>
        simp [cidrsOverlap, ha, parseCIDR_none_of_not_valid b h]

/-- Witness for C10: symmetry at two concrete overlapping CIDRs, and a
non-CIDR first argument yields false. -/
theorem cidrsOverlap_symm_and_parse_failure_witness :
    cidrsOverlap "10.0.0.0/8" "10.1.0.0/16" = cidrsOverlap "10.1.0.0/16" "10.0.0.0/8" ∧
    cidrsOverlap "not-a-cidr" "10.0.0.0/8" = false :=
  ⟨(cidrsOverlap_symm_and_parse_failure "10.0.0.0/8" "10.1.0.0/16").1,
   (cidrsOverlap_symm_and_parse_failure "not-a-cidr" "10.0.0.0/8").2 (Or.inl (by decide))⟩

/-- Soundness of the URL validation: whenever it accepts, the host it
extracted is on the allow-list. -/
theorem gitURL_ok_host (repoURL u : String)
    (hv : validateAndNormalizeGitURL repoURL = .ok u) :
    ∃ hst, gitUrlHost repoURL = some hst ∧ hst ∈ allowedGitHosts := by
  simp only [validateAndNormalizeGitURL] at hv
  simp only [gitUrlHost]
  by_cases hg : goStartsWith (normalizeShortGitURL repoURL) "git@" = true
  · rw [if_pos hg] at hv
    rw [if_pos hg]
    cases hs : gitSSHHost (normalizeShortGitURL repoURL) with
    | none => rw [hs] at hv; simp at hv
    | some host =>
      rw [hs] at hv
      by_cases hin : host ∈ allowedGitHosts
      · exact ⟨host, rfl, hin⟩
      · simp [hin] at hv
  · rw [if_neg hg] at hv
    rw [if_neg hg]
    by_cases hh : goStartsWith (normalizeShortGitURL repoURL) "https://" = true
    · rw [hh] at hv ⊢
      simp only [Bool.not_true, Bool.false_eq_true, if_false]
      simp only [Bool.not_true, Bool.false_eq_true, if_false] at hv
      cases hs : gitHTTPSHost (normalizeShortGitURL repoURL) with
      | none => rw [hs] at hv; simp at hv
      | some host =>
        rw [hs] at hv
        by_cases hin : host ∈ allowedGitHosts
        · exact ⟨host, rfl, hin⟩
        · simp [hin] at hv
    · rw [Bool.not_eq_true] at hh
      rw [hh] at hv
      simp at hv

/-- C8: `LoadFromGit` returns an error and never attempts a clone whenever
the URL's extracted host is missing (a shape that is neither HTTPS nor SSH)
or is not one of the allow-listed hosts. -/
theorem LoadFromGit_rejects_bad_urls (clone : String → Except String Unit)
    (loadTmpDir : Except String (List (String × String))) (repoURL : String)
    (h : ∀ hst, gitUrlHost repoURL = some hst → hst ∉ allowedGitHosts) :
    isErr (LoadFromGit clone loadTmpDir repoURL).result = true ∧
    (LoadFromGit clone loadTmpDir repoURL).cloneAttempted = false := by
  cases hv : validateAndNormalizeGitURL repoURL with
  | error e => simp [LoadFromGit, hv]
  | ok u =>
    obtain ⟨hst, hh, hmem⟩ := gitURL_ok_host repoURL u hv
    exact absurd hmem (h hst hh)

/-- Witness for C8 at a disallowed HTTPS host and at a non-HTTPS scheme. -/
theorem LoadFromGit_rejects_bad_urls_witness :
    (isErr (LoadFromGit (fun _ => .ok ()) (.ok []) "https://evil.com/org/repo").result = true ∧
     (LoadFromGit (fun _ => .ok ()) (.ok []) "https://evil.com/org/repo").cloneAttempted = false) ∧
    (isErr (LoadFromGit (fun _ => .ok ()) (.ok []) "http://github.com/org/repo").result = true ∧
     (LoadFromGit (fun _ => .ok ()) (.ok []) "http://github.com/org/repo").cloneAttempted = false) :=
  ⟨LoadFromGit_rejects_bad_urls _ _ _
     (by
       intro hst hh
       have he : gitUrlHost "https://evil.com/org/repo" = some "evil.com" := by decide
       rw [he] at hh
       injection hh with h2
       subst h2
       decide),
   LoadFromGit_rejects_bad_urls _ _ _
     (by
       intro hst hh
       have he : gitUrlHost "http://github.com/org/repo" = none := by decide
       rw [he] at hh
       cases hh)⟩

/-- C9: cross-reference validation checks every load balancer's backend
unconditionally and its ip only when non-empty: any load balancer whose
backend (the empty string included) is not a declared instance-group name
makes `validateCrossReferences` fail, while a load balancer with an empty
ip and a resolvable backend passes its reference check. -/
theorem validateCrossReferences_backends (cfg : Config) :
    ((∃ lb ∈ cfg.loadBalancers,
        lb.backend ∉ (collectResourceNames cfg).instanceGroups) →
      isErr (validateCrossReferences cfg) = true) ∧
    (∀ lb : LoadBalancer, lb.ip = "" →
      lb.backend ∈ (collectResourceNames cfg).instanceGroups →
      checkLoadBalancerRefs (collectResourceNames cfg) lb = .ok ()) := by
  constructor
  · rintro ⟨lb, hmem, hbad⟩
    apply firstErr_isErr_of_mem _ _ lb hmem
    simp only [checkLoadBalancerRefs]
    split_ifs with h1 h2
    · simp
    · simp
    · simp only [Bool.not_eq_true', decide_eq_false_iff_not, Decidable.not_not] at h2
      exact absurd h2 hbad
  · intro lb hip hmemg
    simp [checkLoadBalancerRefs, hip, hmemg]

/-- Witness for C9: a dangling backend fails, an empty-ip resolvable-backend
balancer passes its check. -/
theorem validateCrossReferences_backends_witness :
    isErr (validateCrossReferences
      ⟨none, none, none, [⟨"lb1", "", "missing", none⟩], none, none, none, none⟩) = true ∧
    checkLoadBalancerRefs
      (collectResourceNames
        ⟨none, none, some ⟨[], [⟨"grp", "tpl", none⟩], []⟩,
          [⟨"lb2", "", "grp", none⟩], none, none, none, none⟩)
      ⟨"lb2", "", "grp", none⟩ = .ok () :=
  ⟨(validateCrossReferences_backends
      ⟨none, none, none, [⟨"lb1", "", "missing", none⟩], none, none, none, none⟩).1
      ⟨⟨"lb1", "", "missing", none⟩, by decide, by decide⟩,
   (validateCrossReferences_backends
      ⟨none, none, some ⟨[], [⟨"grp", "tpl", none⟩], []⟩,
        [⟨"lb2", "", "grp", none⟩], none, none, none, none⟩).2
      ⟨"lb2", "", "grp", none⟩ rfl (by decide)⟩

/-- If the subnet loop of `validateVPC` succeeds, the processed subnets have
pairwise distinct CIDR strings and none of them was already in the carried
set. -/
theorem validateVPCSubnets_ok_nodup (l : List Subnet) (used : List String)
    (h : validateVPCSubnets l used = .ok ()) :
    (l.map Subnet.cidr).Nodup ∧ ∀ s ∈ l, s.cidr ∉ used := by
  induction l generalizing used with
  | nil => exact ⟨List.nodup_nil, by simp⟩
  | cons s rest ih =>
    simp only [validateVPCSubnets] at h
    cases hs : validateSubnet s with
    | error e => rw [hs] at h; simp at h
    | ok u =>
      cases u
      rw [hs] at h
      by_cases hmem : s.cidr ∈ used
      · simp [hmem] at h
      · simp only [hmem, if_false, ite_false] at h
        cases hfind : (s.cidr :: used).find?
            (fun ex => ex != s.cidr && cidrsOverlap s.cidr ex) with
        | some ex => rw [hfind] at h; simp at h
        | none =>
          rw [hfind] at h
          simp only [] at h
          obtain ⟨hnd, hrest⟩ := ih _ h
          refine ⟨?_, ?_⟩
          · rw [List.map_cons]
            refine List.nodup_cons.mpr ⟨?_, hnd⟩
            intro hmemmap
            obtain ⟨t, ht, hteq⟩ := List.mem_map.mp hmemmap
            have hts := hrest t ht
            apply hts
            rw [hteq]
            exact List.mem_cons_self _ _
          · intro t ht
            rcases List.mem_cons.mp ht with rfl | ht2
            · exact hmem
            · intro hmem2
              exact hrest t ht2 (List.mem_cons_of_mem _ hmem2)

/-- Counterexample to C3 as stated: for the VPC with subnets `alpha` and
`beta` sharing `10.0.0.0/24`, validation fails but the returned error names
only the later subnet — the text `alpha` does not occur in it. -/
theorem validateVPC_dup_counterexample :
    validateVPC dupCidrVpc = .error "duplicate CIDR range 10.0.0.0/24 in subnet beta" ∧
    containsSubstr "duplicate CIDR range 10.0.0.0/24 in subnet beta" "alpha" = false := by
  decide

/-- C3 (amended): a VPC containing two subnets with the same CIDR string
always fails validation, and in the two-subnet duplicate case the returned
error names the shared CIDR and the second (later) subnet, not both. -/
theorem validateVPC_dup_fails (vpc : Vpc) (i j : Nat) (hj : j < vpc.subnets.length)
    (hij : i < j)
    (heq : (vpc.subnets.get ⟨i, Nat.lt_trans hij hj⟩).cidr =
      (vpc.subnets.get ⟨j, hj⟩).cidr)
    (vname n₁ n₂ c : String) (hc : isValidCIDR c = true) :
    isErr (validateVPC vpc) = true ∧
    validateVPC ⟨vname, [⟨n₁, c, []⟩, ⟨n₂, c, []⟩]⟩ =
      .error ("duplicate CIDR range " ++ c ++ " in subnet " ++ n₂) := by
  constructor
  · cases hres : validateVPC vpc with
    | error e => simp
    | ok u =>
      cases u
      exfalso
      simp only [validateVPC] at hres
      obtain ⟨hnd, -⟩ := validateVPCSubnets_ok_nodup vpc.subnets [] hres
      have hi2 : i < (vpc.subnets.map Subnet.cidr).length := by
        rw [List.length_map]; exact Nat.lt_trans hij hj
      have hj2 : j < (vpc.subnets.map Subnet.cidr).length := by
        rw [List.length_map]; exact hj
      have heq2 : (vpc.subnets.map Subnet.cidr).get ⟨i, hi2⟩ =
          (vpc.subnets.map Subnet.cidr).get ⟨j, hj2⟩ := by
        simp only [List.get_eq_getElem, List.getElem_map]
        simpa [List.get_eq_getElem] using heq
      have hfin := (List.nodup_iff_injective_get.mp hnd) heq2
      have : i = j := by simpa using congrArg Fin.val hfin
      omega
  · simp [validateVPC, validateVPCSubnets, validateSubnet, validateSecondaryRanges,
      hc, List.find?]

/-- Witness for C3 (amended) at the concrete duplicate VPC. -/
theorem validateVPC_dup_fails_witness :
    isErr (validateVPC dupCidrVpc) = true ∧
    validateVPC ⟨"w", [⟨"alpha", "10.0.0.0/24", []⟩, ⟨"beta", "10.0.0.0/24", []⟩]⟩ =
      .error ("duplicate CIDR range " ++ "10.0.0.0/24" ++ " in subnet " ++ "beta") :=
  validateVPC_dup_fails dupCidrVpc 0 1 (by decide) (by decide) (by decide)
    "w" "alpha" "beta" "10.0.0.0/24" (by decide)

/-- With the builtin template set every always-included project block yields
its file whenever the section is present. -/
theorem projectPart_builtin (cfg : Config) :
    projectPart builtinExec cfg =
      .ok (match cfg.project with
        | none => []
        | some _ => [("project.tf", "")]) := by
  cases hp : cfg.project <;> simp [projectPart, hp, generateProject, builtinExec]

/-- With the builtin template set the networking block renders empty and is
omitted. -/
theorem networkingPart_builtin (cfg : Config) :
    networkingPart builtinExec cfg = .ok [] := by
  cases hn : cfg.networking <;>
    simp [networkingPart, hn, generateNetworking, builtinExec]

/-- With the builtin template set the compute block renders empty and is
omitted. -/
theorem computePart_builtin (cfg : Config) :
    computePart builtinExec cfg = .ok [] := by
  cases hc : cfg.compute <;> simp [computePart, hc, generateCompute, builtinExec]

/-- With the builtin template set the load-balancer block yields its file
whenever the list is non-empty. -/
theorem lbsPart_builtin (cfg : Config) :
    lbsPart builtinExec cfg =
      .ok (if cfg.loadBalancers.length > 0 then [("load_balancers.tf", "")] else []) := by
  by_cases hl : cfg.loadBalancers.length > 0 <;>
    simp [lbsPart, hl, generateLoadBalancers, builtinExec]

/-- With the builtin template set the IAM block renders empty and is
omitted. -/
theorem iamPart_builtin (cfg : Config) :
    iamPart builtinExec cfg = .ok [] := by
  cases hi : cfg.iam <;> simp [iamPart, hi, generateIAM, builtinExec]

/-- With the builtin template set the storage block renders empty and is
omitted. -/
theorem storagePart_builtin (cfg : Config) :
    storagePart builtinExec cfg = .ok [] := by
  cases hs : cfg.storage <;> simp [storagePart, hs, generateStorage, builtinExec]

/-- With the builtin template set the Cloud Run block renders empty and is
omitted. -/
theorem cloudRunPart_builtin (cfg : Config) :
    cloudRunPart builtinExec cfg = .ok [] := by
  cases hc : cfg.cloudRun <;> simp [cloudRunPart, hc, generateCloudRun, builtinExec]

/-- With the builtin template set the databases block renders empty and is
omitted. -/
theorem databasesPart_builtin (cfg : Config) :
    databasesPart builtinExec cfg = .ok [] := by
  cases hd : cfg.databases <;>
    simp [databasesPart, hd, generateDatabases, builtinExec]

/-- C1: every config accepted by `ValidateConfig` generates successfully
with the builtin template set, and the output map contains the keys
`variables.tf` and `outputs.tf`. -/
theorem Generate_builtin_succeeds (structural : Except String Unit) (cfg : Config)
    (h : ValidateConfig structural cfg = .ok ()) :
    ∃ out, Generate builtinExec cfg = .ok out ∧
      "variables.tf" ∈ out.map Prod.fst ∧ "outputs.tf" ∈ out.map Prod.fst := by
  refine ⟨(match cfg.project with
      | none => []
      | some _ => [("project.tf", "")]) ++
    (if cfg.loadBalancers.length > 0 then [("load_balancers.tf", "")] else []) ++
    [("variables.tf", ""), ("outputs.tf", "")], ?_, ?_, ?_⟩
  · simp only [Generate, projectPart_builtin, networkingPart_builtin, computePart_builtin,
      lbsPart_builtin, iamPart_builtin, storagePart_builtin, cloudRunPart_builtin,
      databasesPart_builtin, bindE_ok]
    simp [generateVariables, generateOutputs, builtinExec]
  · simp [List.mem_append]
  · simp [List.mem_append]

/-- Witness for C1: the sample project config passes `ValidateConfig` and
the conclusion holds for it. -/
theorem Generate_builtin_succeeds_witness :
    ValidateConfig (.ok ()) sampleConfig = .ok () ∧
    (∃ out, Generate builtinExec sampleConfig = .ok out ∧
      "variables.tf" ∈ out.map Prod.fst ∧ "outputs.tf" ∈ out.map Prod.fst) :=
  ⟨by decide, Generate_builtin_succeeds (.ok ()) sampleConfig (by decide)⟩

/-- Keys produced by the project block: only `project.tf`, and exactly that
file whenever the section is present. -/
theorem projectPart_spec (exec : ExecFn) (cfg : Config) (a : List (String × String))
    (h : projectPart exec cfg = .ok a) :
    (∀ k ∈ a.map Prod.fst, k = "project.tf") ∧
    (cfg.project ≠ none → a.map Prod.fst = ["project.tf"]) := by
  cases hp : cfg.project with
  | none =>
    simp only [projectPart, hp] at h
    injection h with h2
    subst h2
    exact ⟨by simp, fun hne => absurd rfl hne⟩
  | some p =>
    simp only [projectPart, hp] at h
    cases hg : mapErr "failed to generate project configuration" (generateProject exec p) with
    | error e => rw [hg] at h; simp at h
    | ok content =>
      rw [hg, bindE_ok] at h
      injection h with h2
      subst h2
      exact ⟨by simp, fun _ => by simp⟩

/-- Keys produced by the networking block: only `networking.tf`, and nothing
when the section renders empty. -/
theorem networkingPart_spec (exec : ExecFn) (cfg : Config) (b : List (String × String))
    (h : networkingPart exec cfg = .ok b) :
    (∀ k ∈ b.map Prod.fst, k = "networking.tf") ∧
    (∀ n, cfg.networking = some n → generateNetworking exec n = .ok "" → b = []) := by
  cases hn : cfg.networking with
  | none =>
    simp only [networkingPart, hn] at h
    injection h with h2
    subst h2
    exact ⟨by simp, fun n hx => by cases hx⟩
  | some n =>
    simp only [networkingPart, hn] at h
    cases hg : generateNetworking exec n with
    | error e => rw [hg] at h; simp at h
    | ok content =>
      rw [hg, mapErr_ok, bindE_ok] at h
      injection h with h2
      subst h2
      constructor
      · by_cases hc : (content == "") = true <;> simp [hc]
      · intro n' hn' hg'
        injection hn' with hne
        subst hne
        rw [hg] at hg'
        injection hg' with hce
        subst hce
        simp

/-- Keys produced by the compute block: only `compute.tf`, and nothing when
the section renders empty. -/
theorem computePart_spec (exec : ExecFn) (cfg : Config) (b : List (String × String))
    (h : computePart exec cfg = .ok b) :
    (∀ k ∈ b.map Prod.fst, k = "compute.tf") ∧
    (∀ c, cfg.compute = some c → generateCompute exec c = .ok "" → b = []) := by
  cases hn : cfg.compute with
  | none =>
    simp only [computePart, hn] at h
    injection h with h2
    subst h2
    exact ⟨by simp, fun c hx => by cases hx⟩
  | some c =>
    simp only [computePart, hn] at h
    cases hg : generateCompute exec c with
    | error e => rw [hg] at h; simp at h
    | ok content =>
      rw [hg, mapErr_ok, bindE_ok] at h
      injection h with h2
      subst h2
      constructor
      · by_cases hc : (content == "") = true <;> simp [hc]
      · intro c' hn' hg'
        injection hn' with hne
        subst hne
        rw [hg] at hg'
        injection hg' with hce
        subst hce
        simp

/-- Keys produced by the load-balancer block: only `load_balancers.tf`, and
exactly that file whenever the list is non-empty. -/
theorem lbsPart_spec (exec : ExecFn) (cfg : Config) (d : List (String × String))
    (h : lbsPart exec cfg = .ok d) :
    (∀ k ∈ d.map Prod.fst, k = "load_balancers.tf") ∧
    (cfg.loadBalancers ≠ [] → d.map Prod.fst = ["load_balancers.tf"]) := by
  by_cases hl : cfg.loadBalancers.length > 0
  · simp only [lbsPart, if_pos hl] at h
    cases hg : mapErr "failed to generate load balancer configuration"
        (generateLoadBalancers exec cfg.loadBalancers) with
    | error e => rw [hg] at h; simp at h
    | ok content =>
      rw [hg, bindE_ok] at h
      injection h with h2
      subst h2
      exact ⟨by simp, fun _ => by simp⟩
  · simp only [lbsPart, if_neg hl] at h
    injection h with h2
    subst h2
    refine ⟨by simp, fun hne => ?_⟩
    exact absurd (List.length_pos.mpr hne) hl

/-- Keys produced by the IAM block: only `iam.tf`, and nothing when the
section renders empty. -/
theorem iamPart_spec (exec : ExecFn) (cfg : Config) (b : List (String × String))
    (h : iamPart exec cfg = .ok b) :
    (∀ k ∈ b.map Prod.fst, k = "iam.tf") ∧
    (∀ i, cfg.iam = some i → generateIAM exec i = .ok "" → b = []) := by
  cases hn : cfg.iam with
  | none =>
    simp only [iamPart, hn] at h
    injection h with h2
    subst h2
    exact ⟨by simp, fun i hx => by cases hx⟩
  | some i =>
    simp only [iamPart, hn] at h
    cases hg : generateIAM exec i with
    | error e => rw [hg] at h; simp at h
    | ok content =>
      rw [hg, mapErr_ok, bindE_ok] at h
      injection h with h2
      subst h2
      constructor
      · by_cases hc : (content == "") = true <;> simp [hc]
      · intro i' hn' hg'
        injection hn' with hne
        subst hne
        rw [hg] at hg'
        injection hg' with hce
        subst hce
        simp

/-- Keys produced by the storage block: only `storage.tf`, and nothing when
the section renders empty. -/
theorem storagePart_spec (exec : ExecFn) (cfg : Config) (b : List (String × String))
    (h : storagePart exec cfg = .ok b) :
    (∀ k ∈ b.map Prod.fst, k = "storage.tf") ∧
    (∀ s, cfg.storage = some s → generateStorage exec s = .ok "" → b = []) := by
  cases hn : cfg.storage with
  | none =>
    simp only [storagePart, hn] at h
    injection h with h2
    subst h2
    exact ⟨by simp, fun s hx => by cases hx⟩
  | some s =>
    simp only [storagePart, hn] at h
    cases hg : generateStorage exec s with
    | error e => rw [hg] at h; simp at h
    | ok content =>
      rw [hg, mapErr_ok, bindE_ok] at h
      injection h with h2
      subst h2
      constructor
      · by_cases hc : (content == "") = true <;> simp [hc]
      · intro s' hn' hg'
        injection hn' with hne
        subst hne
        rw [hg] at hg'
        injection hg' with hce
        subst hce
        simp

/-- Keys produced by the Cloud Run block: only `cloud_run.tf`, and nothing
when the section renders empty. -/
theorem cloudRunPart_spec (exec : ExecFn) (cfg : Config) (b : List (String × String))
    (h : cloudRunPart exec cfg = .ok b) :
    (∀ k ∈ b.map Prod.fst, k = "cloud_run.tf") ∧
    (∀ c, cfg.cloudRun = some c → generateCloudRun exec c = .ok "" → b = []) := by
  cases hn : cfg.cloudRun with
  | none =>
    simp only [cloudRunPart, hn] at h
    injection h with h2
    subst h2
    exact ⟨by simp, fun c hx => by cases hx⟩
  | some c =>
    simp only [cloudRunPart, hn] at h
    cases hg : generateCloudRun exec c with
    | error e => rw [hg] at h; simp at h
    | ok content =>
      rw [hg, mapErr_ok, bindE_ok] at h
      injection h with h2
      subst h2
      constructor
      · by_cases hc : (content == "") = true <;> simp [hc]
      · intro c' hn' hg'
        injection hn' with hne
        subst hne
        rw [hg] at hg'
        injection hg' with hce
        subst hce
        simp

/-- Keys produced by the databases block: only `databases.tf`, and nothing
when the section renders empty. -/
theorem databasesPart_spec (exec : ExecFn) (cfg : Config) (b : List (String × String))
    (h : databasesPart exec cfg = .ok b) :
    (∀ k ∈ b.map Prod.fst, k = "databases.tf") ∧
    (∀ d, cfg.databases = some d → generateDatabases exec d = .ok "" → b = []) := by
  cases hn : cfg.databases with
  | none =>
    simp only [databasesPart, hn] at h
    injection h with h2
    subst h2
    exact ⟨by simp, fun d hx => by cases hx⟩
  | some d =>
    simp only [databasesPart, hn] at h
    cases hg : generateDatabases exec d with
    | error e => rw [hg] at h; simp at h
    | ok content =>
      rw [hg, mapErr_ok, bindE_ok] at h
      injection h with h2
      subst h2
      constructor
      · by_cases hc : (content == "") = true <;> simp [hc]
      · intro d' hn' hg'
        injection hn' with hne
        subst hne
        rw [hg] at hg'
        injection hg' with hce
        subst hce
        simp

/-- Decomposition of a successful `Generate` call into its section blocks. -/
theorem Generate_ok_decomp (exec : ExecFn) (cfg : Config) (out : List (String × String))
    (h : Generate exec cfg = .ok out) :
    ∃ a b c d e f g k v o,
      projectPart exec cfg = .ok a ∧ networkingPart exec cfg = .ok b ∧
      computePart exec cfg = .ok c ∧ lbsPart exec cfg = .ok d ∧
      iamPart exec cfg = .ok e ∧ storagePart exec cfg = .ok f ∧
      cloudRunPart exec cfg = .ok g ∧ databasesPart exec cfg = .ok k ∧
      generateVariables exec cfg = .ok v ∧ generateOutputs exec cfg = .ok o ∧
      out = a ++ b ++ c ++ d ++ e ++ f ++ g ++ k ++
        [("variables.tf", v), ("outputs.tf", o)] := by
  simp only [Generate] at h
  cases h1 : projectPart exec cfg with
  | error e1 => rw [h1, bindE_error] at h; exact absurd h (by simp)
  | ok a =>
  rw [h1, bindE_ok] at h
  cases h2 : networkingPart exec cfg with
  | error e2 => rw [h2, bindE_error] at h; exact absurd h (by simp)
  | ok b =>
  rw [h2, bindE_ok] at h
  cases h3 : computePart exec cfg with
  | error e3 => rw [h3, bindE_error] at h; exact absurd h (by simp)
  | ok c =>
  rw [h3, bindE_ok] at h
  cases h4 : lbsPart exec cfg with
  | error e4 => rw [h4, bindE_error] at h; exact absurd h (by simp)
  | ok d =>
  rw [h4, bindE_ok] at h
  cases h5 : iamPart exec cfg with
  | error e5 => rw [h5, bindE_error] at h; exact absurd h (by simp)
  | ok e =>
  rw [h5, bindE_ok] at h
  cases h6 : storagePart exec cfg with
  | error e6 => rw [h6, bindE_error] at h; exact absurd h (by simp)
  | ok f =>
  rw [h6, bindE_ok] at h
  cases h7 : cloudRunPart exec cfg with
  | error e7 => rw [h7, bindE_error] at h; exact absurd h (by simp)
  | ok g =>
  rw [h7, bindE_ok] at h
  cases h8 : databasesPart exec cfg with
  | error e8 => rw [h8, bindE_error] at h; exact absurd h (by simp)
  | ok k =>
  rw [h8, bindE_ok] at h
  cases h9 : generateVariables exec cfg with
  | error e9 => rw [h9] at h; simp [mapErr] at h
  | ok v =>
  rw [h9, mapErr_ok, bindE_ok] at h
  cases h10 : generateOutputs exec cfg with
  | error e10 => rw [h10] at h; simp [mapErr] at h
  | ok o =>
  rw [h10, mapErr_ok, bindE_ok] at h
  injection h with hout
  exact ⟨a, b, c, d, e, f, g, k, v, o, rfl, rfl, rfl, rfl, rfl, rfl, rfl, rfl, rfl, rfl,
    hout.symm⟩

/-- C7: in a successful `Generate` output map, `variables.tf` and
`outputs.tf` are always present, `project.tf` is present whenever the
project section is, `load_balancers.tf` whenever at least one load balancer
is declared (even when their rendered text is empty), while a networking,
compute, IAM, storage, Cloud Run or databases section whose template
renders to the empty string is omitted. -/
theorem Generate_empty_section_policy (exec : ExecFn) (cfg : Config)
    (out : List (String × String)) (h : Generate exec cfg = .ok out) :
    "variables.tf" ∈ out.map Prod.fst ∧
    "outputs.tf" ∈ out.map Prod.fst ∧
    (cfg.project ≠ none → "project.tf" ∈ out.map Prod.fst) ∧
    (cfg.loadBalancers ≠ [] → "load_balancers.tf" ∈ out.map Prod.fst) ∧
    (∀ n, cfg.networking = some n → generateNetworking exec n = .ok "" →
      "networking.tf" ∉ out.map Prod.fst) ∧
    (∀ c, cfg.compute = some c → generateCompute exec c = .ok "" →
      "compute.tf" ∉ out.map Prod.fst) ∧
    (∀ i, cfg.iam = some i → generateIAM exec i = .ok "" →
      "iam.tf" ∉ out.map Prod.fst) ∧
    (∀ s, cfg.storage = some s → generateStorage exec s = .ok "" →
      "storage.tf" ∉ out.map Prod.fst) ∧
    (∀ c, cfg.cloudRun = some c → generateCloudRun exec c = .ok "" →
      "cloud_run.tf" ∉ out.map Prod.fst) ∧
    (∀ d, cfg.databases = some d → generateDatabases exec d = .ok "" →
      "databases.tf" ∉ out.map Prod.fst) := by
  obtain ⟨a, b, c, d, e, f, g, k, v, o, ha, hb, hc, hd, he, hf, hg, hk, hv, ho, hout⟩ :=
    Generate_ok_decomp exec cfg out h
  subst hout
  obtain ⟨haK, haP⟩ := projectPart_spec exec cfg a ha
  obtain ⟨hbK, hbE⟩ := networkingPart_spec exec cfg b hb
  obtain ⟨hcK, hcE⟩ := computePart_spec exec cfg c hc
  obtain ⟨hdK, hdP⟩ := lbsPart_spec exec cfg d hd
  obtain ⟨heK, heE⟩ := iamPart_spec exec cfg e he
  obtain ⟨hfK, hfE⟩ := storagePart_spec exec cfg f hf
  obtain ⟨hgK, hgE⟩ := cloudRunPart_spec exec cfg g hg
  obtain ⟨hkK, hkE⟩ := databasesPart_spec exec cfg k hk
  refine ⟨?_, ?_, ?_, ?_, ?_, ?_, ?_, ?_, ?_, ?_⟩
  · simp [List.mem_append]
  · simp [List.mem_append]
  · intro hp
    have hmap := haP hp
    simp [List.map_append, List.mem_append, hmap]
  · intro hl
    have hmap := hdP hl
    simp [List.map_append, List.mem_append, hmap]
  · intro n hn hgen
    have hb0 : b = [] := hbE n hn hgen
    intro hmem
    simp only [List.map_append, List.mem_append] at hmem
    rcases hmem with ((((((((hm | hm) | hm) | hm) | hm) | hm) | hm) | hm) | hm)
    · exact absurd (haK _ hm) (by decide)
    · rw [hb0] at hm; simp at hm
    · exact absurd (hcK _ hm) (by decide)
    · exact absurd (hdK _ hm) (by decide)
    · exact absurd (heK _ hm) (by decide)
    · exact absurd (hfK _ hm) (by decide)
    · exact absurd (hgK _ hm) (by decide)
    · exact absurd (hkK _ hm) (by decide)
    · simp only [List.map_cons, List.map_nil] at hm
      exact absurd hm (by decide)
  · intro c' hn hgen
    have h0 : c = [] := hcE c' hn hgen
    intro hmem
    simp only [List.map_append, List.mem_append] at hmem
    rcases hmem with ((((((((hm | hm) | hm) | hm) | hm) | hm) | hm) | hm) | hm)
    · exact absurd (haK _ hm) (by decide)
    · exact absurd (hbK _ hm) (by decide)
    · rw [h0] at hm; simp at hm
    · exact absurd (hdK _ hm) (by decide)
    · exact absurd (heK _ hm) (by decide)
    · exact absurd (hfK _ hm) (by decide)
    · exact absurd (hgK _ hm) (by decide)
    · exact absurd (hkK _ hm) (by decide)
    · simp only [List.map_cons, List.map_nil] at hm
      exact absurd hm (by decide)
  · intro i' hn hgen
    have h0 : e = [] := heE i' hn hgen
    intro hmem
    simp only [List.map_append, List.mem_append] at hmem
    rcases hmem with ((((((((hm | hm) | hm) | hm) | hm) | hm) | hm) | hm) | hm)
    · exact absurd (haK _ hm) (by decide)
    · exact absurd (hbK _ hm) (by decide)
    · exact absurd (hcK _ hm) (by decide)
    · exact absurd (hdK _ hm) (by decide)
    · rw [h0] at hm; simp at hm
    · exact absurd (hfK _ hm) (by decide)
    · exact absurd (hgK _ hm) (by decide)
    · exact absurd (hkK _ hm) (by decide)
    · simp only [List.map_cons, List.map_nil] at hm
      exact absurd hm (by decide)
  · intro s' hn hgen
    have h0 : f = [] := hfE s' hn hgen
    intro hmem
    simp only [List.map_append, List.mem_append] at hmem
    rcases hmem with ((((((((hm | hm) | hm) | hm) | hm) | hm) | hm) | hm) | hm)
    · exact absurd (haK _ hm) (by decide)
    · exact absurd (hbK _ hm) (by decide)
    · exact absurd (hcK _ hm) (by decide)
    · exact absurd (hdK _ hm) (by decide)
    · exact absurd (heK _ hm) (by decide)
    · rw [h0] at hm; simp at hm
    · exact absurd (hgK _ hm) (by decide)
    · exact absurd (hkK _ hm) (by decide)
    · simp only [List.map_cons, List.map_nil] at hm
      exact absurd hm (by decide)
  · intro c' hn hgen
    have h0 : g = [] := hgE c' hn hgen
    intro hmem
    simp only [List.map_append, List.mem_append] at hmem
    rcases hmem with ((((((((hm | hm) | hm) | hm) | hm) | hm) | hm) | hm) | hm)
    · exact absurd (haK _ hm) (by decide)
    · exact absurd (hbK _ hm) (by decide)
    · exact absurd (hcK _ hm) (by decide)
    · exact absurd (hdK _ hm) (by decide)
    · exact absurd (heK _ hm) (by decide)
    · exact absurd (hfK _ hm) (by decide)
    · rw [h0] at hm; simp at hm
    · exact absurd (hkK _ hm) (by decide)
    · simp only [List.map_cons, List.map_nil] at hm
      exact absurd hm (by decide)
  · intro d' hn hgen
    have h0 : k = [] := hkE d' hn hgen
    intro hmem
    simp only [List.map_append, List.mem_append] at hmem
    rcases hmem with ((((((((hm | hm) | hm) | hm) | hm) | hm) | hm) | hm) | hm)
    · exact absurd (haK _ hm) (by decide)
    · exact absurd (hbK _ hm) (by decide)
    · exact absurd (hcK _ hm) (by decide)
    · exact absurd (hdK _ hm) (by decide)
    · exact absurd (heK _ hm) (by decide)
    · exact absurd (hfK _ hm) (by decide)
    · exact absurd (hgK _ hm) (by decide)
    · rw [h0] at hm; simp at hm
    · simp only [List.map_cons, List.map_nil] at hm
      exact absurd hm (by decide)

/-- Witness for C7 at the builtin template set and a config with project,
empty-rendering networking, and one load balancer. -/
theorem Generate_empty_section_policy_witness :
    "variables.tf" ∈ policyOut.map Prod.fst ∧
    "outputs.tf" ∈ policyOut.map Prod.fst ∧
    (policyConfig.project ≠ none → "project.tf" ∈ policyOut.map Prod.fst) ∧
    (policyConfig.loadBalancers ≠ [] → "load_balancers.tf" ∈ policyOut.map Prod.fst) ∧
    (∀ n, policyConfig.networking = some n → generateNetworking builtinExec n = .ok "" →
      "networking.tf" ∉ policyOut.map Prod.fst) ∧
    (∀ c, policyConfig.compute = some c → generateCompute builtinExec c = .ok "" →
      "compute.tf" ∉ policyOut.map Prod.fst) ∧
    (∀ i, policyConfig.iam = some i → generateIAM builtinExec i = .ok "" →
      "iam.tf" ∉ policyOut.map Prod.fst) ∧
    (∀ s, policyConfig.storage = some s → generateStorage builtinExec s = .ok "" →
      "storage.tf" ∉ policyOut.map Prod.fst) ∧
    (∀ c, policyConfig.cloudRun = some c → generateCloudRun builtinExec c = .ok "" →
      "cloud_run.tf" ∉ policyOut.map Prod.fst) ∧
    (∀ d, policyConfig.databases = some d → generateDatabases builtinExec d = .ok "" →
      "databases.tf" ∉ policyOut.map Prod.fst) :=
  Generate_empty_section_policy builtinExec policyConfig policyOut (by decide)

end Custoodian
